import Mathlib

/-!
Verification of the notification delivery core.

This file gives a shallow embedding, in Lean, of the notification subsystem:
the channel-fallback dispatcher (`showNotification`, `playNotificationSound`,
`generateNotificationId`, `retryFailedNotifications` from
`src/utils/notificationService.ts`) and the stream-notification hook
(`generateMessageId`, `setupMessageListener`'s callback, `addNotification`,
`handleVisibilityChange`, the store mutations and the reconnect backoff of
`setupListener` from the `useNotifications` hook), followed by theorems that
settle the specification's claims about them.

JavaScript strings are modelled as `List Char`; JavaScript numbers that matter
here (timestamps, delays, 32-bit hashing) are modelled as `Nat`/`Int` with
explicit wrap-around where the source relies on 32-bit semantics. Asynchronous
effects (setTimeout scheduling, audio playback, channel calls) are modelled by
explicit effect traces and by environments that record how each external
capability responds.
-/

namespace NotifCore

/-- JavaScript strings are modelled as lists of characters, so that the
delimiter-splitting performed by the source can be reasoned about directly. -/
abbrev JStr := List Char

/-! ### Decimal rendering of numbers (template-literal interpolation) -/

/-- Decimal digit character, mirroring how a JavaScript number is rendered in
a template literal one digit at a time. Only arguments below 10 occur. -/
def digitChar : Nat → Char
  | 0 => '0' | 1 => '1' | 2 => '2' | 3 => '3' | 4 => '4'
  | 5 => '5' | 6 => '6' | 7 => '7' | 8 => '8' | 9 => '9'
  | _ => '*'

/-- Fuel-indexed decimal rendering; the fuel is an upper bound on the number
of digits and makes the recursion structural. -/
def natCharsAux : Nat → Nat → JStr
  | 0, _ => []
  | fuel + 1, n =>
    if n < 10 then [digitChar n]
    else natCharsAux fuel (n / 10) ++ [digitChar (n % 10)]

/-- Decimal rendering of a natural number, as in `${Date.now()}`. -/
def natChars (n : Nat) : JStr := natCharsAux (n + 1) n

/-- Rendering of a JavaScript (possibly negative) integer, as in `${hash}`. -/
def intChars (i : Int) : JStr :=
  if i < 0 then '-' :: natChars i.natAbs else natChars i.toNat

/-- Decimal parsing, used only to prove that rendering is injective. -/
def natVal (l : JStr) : Nat :=
  l.foldl (fun a c => a * 10 + (c.toNat - 48)) 0

theorem digitChar_toNat {d : Nat} (h : d < 10) : (digitChar d).toNat = 48 + d := by
  interval_cases d <;> rfl

theorem digitChar_ne_dash (d : Nat) : digitChar d ≠ '-' := by
  unfold digitChar
  split <;> decide

theorem natVal_append_digit (l : JStr) (c : Char) :
    natVal (l ++ [c]) = natVal l * 10 + (c.toNat - 48) := by
  simp [natVal, List.foldl_append]

theorem natVal_natCharsAux : ∀ fuel n, n ≤ fuel → natVal (natCharsAux fuel n) = n := by
  intro fuel
  induction fuel with
  | zero => intro n hn; interval_cases n; rfl
  | succ f ih =>
    intro n hn
    unfold natCharsAux
    by_cases h10 : n < 10
    · simp only [if_pos h10]
      simp [natVal, digitChar_toNat h10]
    · simp only [if_neg h10]
      rw [natVal_append_digit]
      have hdiv : n / 10 ≤ f := by omega
      rw [ih (n / 10) hdiv, digitChar_toNat (Nat.mod_lt n (by omega))]
      omega

theorem natVal_natChars (n : Nat) : natVal (natChars n) = n :=
  natVal_natCharsAux (n + 1) n (by omega)

theorem natChars_injective {m n : Nat} (h : natChars m = natChars n) : m = n := by
  have := natVal_natChars m
  rw [h, natVal_natChars] at this
  omega

theorem dash_not_mem_natCharsAux : ∀ fuel n, '-' ∉ natCharsAux fuel n := by
  intro fuel
  induction fuel with
  | zero => intro n; simp [natCharsAux]
  | succ f ih =>
    intro n
    unfold natCharsAux
    by_cases h10 : n < 10
    · simp only [if_pos h10, List.mem_singleton]
      exact fun h => digitChar_ne_dash n h.symm
    · simp only [if_neg h10, List.mem_append, List.mem_singleton]
      rintro (h | h)
      · exact ih (n / 10) h
      · exact digitChar_ne_dash (n % 10) h.symm

theorem dash_not_mem_natChars (n : Nat) : '-' ∉ natChars n :=
  dash_not_mem_natCharsAux (n + 1) n

/-! ### Splitting and joining on the `-` delimiter (JS `split('-')` / `join('-')`) -/

/-- `splitOnDash` is JavaScript's `s.split('-')` on the character-list model. -/
def splitOnDash : JStr → List JStr
  | [] => [[]]
  | c :: rest =>
    if c = '-' then [] :: splitOnDash rest
    else
      match splitOnDash rest with
      | [] => [[c]]
      | h :: t => (c :: h) :: t

/-- `joinDash` is JavaScript's `parts.join('-')`. -/
def joinDash : List JStr → JStr
  | [] => []
  | [x] => x
  | x :: y :: ys => x ++ '-' :: joinDash (y :: ys)

theorem splitOnDash_ne_nil : ∀ l : JStr, splitOnDash l ≠ [] := by
  intro l
  induction l with
  | nil => simp [splitOnDash]
  | cons c rest ih =>
    unfold splitOnDash
    by_cases h : c = '-'
    · simp [h]
    · simp only [if_neg h]
      cases hs : splitOnDash rest <;> simp

theorem joinDash_splitOnDash : ∀ l : JStr, joinDash (splitOnDash l) = l := by
  intro l
  induction l with
  | nil => rfl
  | cons c rest ih =>
    unfold splitOnDash
    by_cases h : c = '-'
    · simp only [if_pos h]
      cases hs : splitOnDash rest with
      | nil => exact absurd hs (splitOnDash_ne_nil rest)
      | cons p ps =>
        rw [hs] at ih
        simp [joinDash, ih, h]
    · simp only [if_neg h]
      cases hs : splitOnDash rest with
      | nil => exact absurd hs (splitOnDash_ne_nil rest)
      | cons p ps =>
        rw [hs] at ih
        cases ps with
        | nil => simp [joinDash] at ih ⊢; rw [ih]
        | cons q qs => simp [joinDash] at ih ⊢; exact ih

theorem splitOnDash_no_dash : ∀ l : JStr, '-' ∉ l → splitOnDash l = [l] := by
  intro l
  induction l with
  | nil => intro _; rfl
  | cons c rest ih =>
    intro hmem
    have hc : c ≠ '-' := fun h => hmem (by simp [h])
    have hrest : '-' ∉ rest := fun h => hmem (by simp [h])
    unfold splitOnDash
    rw [if_neg hc, ih hrest]

theorem splitOnDash_append_dash : ∀ xs ys : JStr, '-' ∉ xs →
    splitOnDash (xs ++ '-' :: ys) = xs :: splitOnDash ys := by
  intro xs
  induction xs with
  | nil => intro ys _; simp [splitOnDash]
  | cons c rest ih =>
    intro ys hmem
    have hc : c ≠ '-' := fun h => hmem (by simp [h])
    have hrest : '-' ∉ rest := fun h => hmem (by simp [h])
    simp only [List.cons_append]
    rw [splitOnDash, if_neg hc, ih ys hrest]

theorem splitOnDash_append_last : ∀ m t : JStr, '-' ∉ t →
    splitOnDash (m ++ '-' :: t) = splitOnDash m ++ [t] := by
  intro m
  induction m with
  | nil =>
    intro t ht
    simp [splitOnDash, splitOnDash_no_dash t ht]
  | cons c rest ih =>
    intro t ht
    simp only [List.cons_append]
    unfold splitOnDash
    by_cases hc : c = '-'
    · rw [if_pos hc, if_pos hc, ih t ht]
      rfl
    · rw [if_neg hc, if_neg hc, ih t ht]
      cases hs : splitOnDash rest with
      | nil => exact absurd hs (splitOnDash_ne_nil rest)
      | cons p ps => simp

/-! ### JavaScript falsy-or defaults -/

/-- JS `s || d` on strings: the default is taken when the value is absent or
empty (falsy). -/
def jsOrStr (s : Option JStr) (d : JStr) : JStr :=
  match s with
  | some v => if v = [] then d else v
  | none => d

/-- JS `n || d` on numbers: the default is taken when the value is absent or
zero (falsy). -/
def jsOrNat (n : Option Nat) (d : Nat) : Nat :=
  match n with
  | some v => if v = 0 then d else v
  | none => d

/-! ### Channel Fallback Dispatcher (`src/utils/notificationService.ts`) -/

/-- `NotificationData` from `notificationService.ts`. -/
structure NotificationData where
  title : JStr
  message : JStr
  icon : Option JStr := none
  duration : Option Nat := none
deriving DecidableEq, Repr

/-- `generateNotificationId`: the string template
interpolating title, message and `Date.now()` separated by dashes. -/
def generateNotificationId (data : NotificationData) (now : Nat) : JStr :=
  data.title ++ '-' :: (data.message ++ '-' :: natChars now)

/-- OS notification permission states of the `Notification.permission` API. -/
inductive Permission
  | granted
  | denied
  | defaultPerm
deriving DecidableEq, Repr

/-- Environment describing how the sound channel responds: whether the
preloaded asset is available, and whether each `play()` call succeeds
(indexed by the retry attempt on which it is issued). -/
structure SoundEnv where
  soundLoaded : Bool
  preloadedPlayOk : Nat → Bool
  fallbackPlayOk : Nat → Bool
  wavPlayOk : Bool

/-- Sub-effects of the sound path, in the order they are attempted. -/
inductive SoundEffect
  | preloadedPlay (attempt : Nat)
  | fallbackPlay (attempt : Nat)
  | wavPlay
deriving DecidableEq, Repr

/-- The `attemptPlay` closure inside `playNotificationSound`, with `MAX_RETRIES = 3`.
The first component is the resolved boolean, the second the trace of play
attempts. The fuel argument only makes the bounded retry loop structural;
the initial call's fuel (4) is never exhausted because `retryCount` is only
re-entered while strictly below 3. -/
def attemptPlay (env : SoundEnv) : Nat → Nat → Bool × List SoundEffect
  | 0, _ => (false, [])
  | fuel + 1, r =>
    if env.soundLoaded then
      if env.preloadedPlayOk r then (true, [.preloadedPlay r])
      else if r < 3 then
        let (b, tr) := attemptPlay env fuel (r + 1)
        (b, .preloadedPlay r :: tr)
      else (false, [.preloadedPlay r])
    else
      if env.fallbackPlayOk r then (true, [.fallbackPlay r])
      else if r = 0 then
        if env.wavPlayOk then (true, [.fallbackPlay r, .wavPlay])
        else if r < 3 then
          let (b, tr) := attemptPlay env fuel (r + 1)
          (b, .fallbackPlay r :: .wavPlay :: tr)
        else (false, [.fallbackPlay r, .wavPlay])
      else if r < 3 then
        let (b, tr) := attemptPlay env fuel (r + 1)
        (b, .fallbackPlay r :: tr)
      else (false, [.fallbackPlay r])

/-- `playNotificationSound`: resolves (never rejects) with a boolean, after
trying the preloaded asset, else the ad-hoc fallback, else the WAV encoding,
with up to `MAX_RETRIES` re-attempts. -/
def playNotificationSound (env : SoundEnv) : Bool × List SoundEffect :=
  attemptPlay env 4 0

/-- Environment describing the visual channels: the native bridge, the OS
notification capability and its permission state. `requestOutcome = none`
models `Notification.requestPermission()` rejecting. -/
structure VisualEnv where
  androidPresent : Bool
  androidThrows : Bool
  hasNotificationAPI : Bool
  permission : Permission
  requestOutcome : Option Permission
  constructorThrows : Bool
deriving Repr

/-- Observable effects of one `showNotification` call, in program order. -/
inductive Effect
  | sound (e : SoundEffect)
  | androidCall
  | permissionRequest
  | osNotify (autoDismissMs : Nat)
  | uiFallback
  | scheduleRetry (delayMs : Nat) (id : JStr)
deriving DecidableEq, Repr

/-- Outcome of one `showNotification` call. The function itself always
resolves; `failedRetryScheduled`/`failedNoRetry` are the outer-catch paths. -/
inductive Outcome
  | android
  | os
  | ui
  | failedRetryScheduled
  | failedNoRetry
deriving DecidableEq, Repr

/-- The module-level mutable state of `notificationService.ts`:
`activeNotifications` and the `failedNotifications` set (modelled as a
duplicate-free list in insertion order, matching JS `Set` iteration). -/
structure ServiceState where
  activeNotifications : List NotificationData
  failedNotifications : List JStr
deriving DecidableEq, Repr

/-- JS `Set.add`: appends only when absent. -/
def setInsert (l : List JStr) (id : JStr) : List JStr :=
  if id ∈ l then l else l ++ [id]

/-- `areBrowserNotificationsSupported`: `.error` models the awaited
permission request rejecting (the only throw this function can propagate);
the effect list records whether a permission request was issued. -/
def areBrowserNotificationsSupported (env : VisualEnv) : Except Unit Bool × List Effect :=
  if !env.hasNotificationAPI then (.ok false, [])
  else if env.permission = .granted then (.ok true, [])
  else if env.permission = .denied then (.ok false, [])
  else
    match env.requestOutcome with
    | none => (.error (), [.permissionRequest])
    | some p => (.ok (p = Permission.granted), [.permissionRequest])

/-- The part of `showNotification` after the native-bridge step: browser
notification attempt, UI fall-through, and the outer catch with its
failed-set bookkeeping and 1000 ms auto-retry scheduling. `pre` carries the
effects already emitted by the bridge step. -/
def afterBridge (env : VisualEnv) (failed : List JStr) (id : JStr) (wasFailed : Bool)
    (dur : Option Nat) (pre : List Effect) : List JStr × List Effect × Outcome :=
  match areBrowserNotificationsSupported env with
  | (.error _, reqEff) =>
    if !wasFailed then
      (setInsert failed id, pre ++ reqEff ++ [.scheduleRetry 1000 id], .failedRetryScheduled)
    else (failed, pre ++ reqEff, .failedNoRetry)
  | (.ok canUse, reqEff) =>
    if canUse then
      if !env.constructorThrows then
        (failed.erase id, pre ++ reqEff ++ [.osNotify (jsOrNat dur 5000)], .os)
      else
        (failed.erase id, pre ++ reqEff ++ [.uiFallback], .ui)
    else
      (failed.erase id, pre ++ reqEff ++ [.uiFallback], .ui)

/-- The full visual-channel walk of `showNotification`'s try/catch: the
native bridge first (a thrown bridge error falls through to the next
channel), then `afterBridge`. -/
def visualDispatch (venv : VisualEnv) (failed : List JStr) (id : JStr) (wasFailed : Bool)
    (dur : Option Nat) : List JStr × List Effect × Outcome :=
  if venv.androidPresent then
    if !venv.androidThrows then (failed.erase id, [Effect.androidCall], Outcome.android)
    else afterBridge venv failed id wasFailed dur [Effect.androidCall]
  else afterBridge venv failed id wasFailed dur []

/-- `showNotification`: computes the fingerprint id, records the call in
`activeNotifications`, always plays sound first, then walks the visual
channels in priority order inside a try/catch whose catch adds the id to the
failed set and schedules a single 1000 ms auto-retry (unless the id had
already failed before this call). -/
def showNotification (senv : SoundEnv) (venv : VisualEnv) (st : ServiceState)
    (data : NotificationData) (now : Nat) : ServiceState × List Effect × Outcome :=
  let id := generateNotificationId data now
  let v := visualDispatch venv st.failedNotifications id (id ∈ st.failedNotifications)
    data.duration
  (⟨st.activeNotifications ++ [data], v.1⟩,
    (playNotificationSound senv).2.map Effect.sound ++ v.2.1, v.2.2)

/-- The callback of the 1000 ms auto-retry timer: it re-checks that the id is
still in the failed set before re-invoking `showNotification`. Returns `none`
when the guard suppresses the retry. -/
def runScheduledRetry (senv : SoundEnv) (venv : VisualEnv) (st : ServiceState) (id : JStr)
    (data : NotificationData) (now : Nat) : Option (ServiceState × List Effect × Outcome) :=
  if id ∈ st.failedNotifications then some (showNotification senv venv st data now) else none

/-- The id-parsing step of `retryFailedNotifications`: destructure on `-`,
drop the trailing timestamp component, rejoin the middle as the message. -/
def parseNotificationId (id : JStr) : JStr × JStr :=
  let parts := splitOnDash id
  let title := parts.headD []
  let messageParts := parts.tail
  (title, joinDash messageParts.dropLast)

/-- `retryFailedNotifications`: drains the failed set and re-delivers each
recoverable id; modelled by the list of `(title, message)` pairs actually
passed back to `showNotification` (an id is skipped when the parsed title or
message is empty, JS falsiness). -/
def retryFailedNotifications (failed : List JStr) : List (JStr × JStr) :=
  failed.filterMap fun id =>
    let p := parseNotificationId id
    if p.1 ≠ [] ∧ p.2 ≠ [] then some p else none

/-! ### Stream hook (`useNotifications` in the study tools source) -/

/-- Kinds of a stored notification (`'group' | 'message' | 'system'`). -/
inductive NotifType
  | group
  | message
  | system
deriving DecidableEq, Repr

/-- The durable `Notification` record of the hook. -/
structure Notification where
  id : JStr
  title : JStr
  message : JStr
  read : Bool
  timestamp : Nat
  type : Option NotifType := none
  groupId : Option JStr := none
  chatId : Option JStr := none
  senderName : Option JStr := none
deriving DecidableEq, Repr

/-- The opaque message record delivered by the push source. -/
structure MessageInfo where
  chatId : JStr
  sender : JStr
  text : JStr
  isGroup : Bool
  groupName : Option JStr := none
  senderName : Option JStr := none
deriving DecidableEq, Repr

/-- `x | 0` in JavaScript: wrap an exact integer to signed 32-bit. -/
def wrap32 (x : Int) : Int := (x + 2 ^ 31) % 2 ^ 32 - 2 ^ 31

/-- One iteration of the text hash: `hash = ((hash << 5) - hash) + code; hash |= 0`.
The shift itself operates on 32 bits, the subtraction and addition are exact,
and the final `|= 0` wraps. -/
def hashStep (h : Int) (c : Char) : Int :=
  wrap32 (wrap32 (h * 32) - h + c.toNat)

/-- The order-dependent character-code hash computed in `generateMessageId`. -/
def textHash (s : JStr) : Int := s.foldl hashStep 0

/-- The literal characters `-time-` separating the hash from the timestamp. -/
def timeTag : JStr := ['-', 't', 'i', 'm', 'e', '-']

/-- `generateMessageId`: `` `${chatId}-${sender}-${text}-${hash}-time-${Date.now()}` ``. -/
def generateMessageId (m : MessageInfo) (now : Nat) : JStr :=
  m.chatId ++ '-' :: m.sender ++ '-' :: m.text ++ '-' ::
    (intChars (textHash m.text) ++ timeTag ++ natChars now)

/-- The parameter record of `addNotification`: a notification whose `id`,
`timestamp` and `read` fields are optional. -/
structure AddInput where
  id : Option JStr := none
  title : JStr
  message : JStr
  read : Option Bool := none
  timestamp : Option Nat := none
  type : Option NotifType := none
  groupId : Option JStr := none
  chatId : Option JStr := none
  senderName : Option JStr := none
deriving DecidableEq, Repr

/-- The characters `manual_`, the tag of ids generated by `addNotification`. -/
def manualTag : JStr := ['m', 'a', 'n', 'u', 'a', 'l', '_']

/-- The characters `msg_`, the tag of ids generated on the stream path. -/
def msgTag : JStr := ['m', 's', 'g', '_']

/-- The characters of the default title `Notification`. -/
def defaultTitleWord : JStr := ['N', 'o', 't', 'i', 'f', 'i', 'c', 'a', 't', 'i', 'o', 'n']

/-- The characters of the default sender `Someone`. -/
def someoneWord : JStr := ['S', 'o', 'm', 'e', 'o', 'n', 'e']

/-- The characters of the default group name `Group`. -/
def groupWord : JStr := ['G', 'r', 'o', 'u', 'p']

/-- The record `addNotification` builds from its parameter: missing or falsy
`id` gets `manual_<now><random>`, missing `read` gets `false`, falsy
`timestamp` gets `Date.now()`. `rand` stands for the random suffix. -/
def mkRecord (inp : AddInput) (now : Nat) (rand : JStr) : Notification :=
  { id := jsOrStr inp.id (manualTag ++ natChars now ++ rand)
    title := inp.title
    message := inp.message
    read := inp.read.getD false
    timestamp := jsOrNat inp.timestamp now
    type := inp.type
    groupId := inp.groupId
    chatId := inp.chatId
    senderName := inp.senderName }

/-- The per-record duplicate test of `addNotification`'s insert: same message
and kind, with a timestamp newer than 5000 ms before the incoming one, or an
identical id. The timestamp comparison is exact JS arithmetic, so it is taken
over `Int`. -/
def dupWith (nn n : Notification) : Bool :=
  decide (n.message = nn.message) && decide (n.type = nn.type) &&
    (decide ((n.timestamp : Int) > (nn.timestamp : Int) - 5000) || decide (n.id = nn.id))

/-- The Store-level duplicate check on insert. -/
def isDuplicate (prev : List Notification) (nn : Notification) : Bool :=
  prev.any (dupWith nn)

/-- `addNotification`: builds the record, inserts unless the duplicate check
rejects it, and (when sound is enabled) hands a `NotificationData` to the
dispatcher. Returns the new store, the id the call returns to its caller,
and the data passed to the dispatcher (`none` when sound is disabled). -/
def addNotification (playSound : Bool) (prev : List Notification) (inp : AddInput)
    (now : Nat) (rand : JStr) : List Notification × JStr × Option NotificationData :=
  let nn := mkRecord inp now rand
  let next := if isDuplicate prev nn then prev else nn :: prev
  let delivered :=
    if playSound then some { title := jsOrStr (some inp.title) defaultTitleWord,
                             message := inp.message : NotificationData }
    else none
  (next, nn.id, delivered)

/-- The mutable state of the hook that the stream path touches: the store,
the background buffer, the visibility flag and the processed-id set. -/
structure HookState where
  notifications : List Notification
  pending : List Notification
  visible : Bool
  processedIds : List JStr
deriving DecidableEq, Repr

/-- `handleVisibilityChange`: on a hidden→visible edge, flush the pending
buffer (when non-empty) ahead of the store and clear it; always record the
new visibility. -/
def handleVisibilityChange (isVisible : Bool) (st : HookState) : HookState :=
  if isVisible && !st.visible then
    let st1 :=
      if st.pending ≠ [] then
        { st with notifications := st.pending ++ st.notifications, pending := [] }
      else st
    { st1 with visible := true }
  else { st with visible := isVisible }

/-- The record built by the stream listener callback for one message. -/
def mkStreamRecord (m : MessageInfo) (now : Nat) (rand : JStr) : Notification :=
  { id := msgTag ++ natChars now ++ rand
    title :=
      if m.isGroup then
        jsOrStr m.groupName groupWord ++ ':' :: ' ' :: jsOrStr m.senderName someoneWord
      else jsOrStr m.senderName someoneWord
    message := m.text
    read := false
    timestamp := now
    type := some (if m.isGroup then .group else .message)
    groupId := if m.isGroup then some m.chatId else none
    chatId := if m.isGroup then none else some m.chatId
    senderName := m.senderName }

/-- View of a full `Notification` as an `addNotification` parameter, as the
stream path passes its freshly built record. -/
def toAddInput (n : Notification) : AddInput :=
  { id := some n.id
    title := n.title
    message := n.message
    read := some n.read
    timestamp := some n.timestamp
    type := n.type
    groupId := n.groupId
    chatId := n.chatId
    senderName := n.senderName }

/-- The `onMessage` callback of `setupMessageListener`: fingerprint the
event, drop it if already processed, otherwise register the id and either
insert via `addNotification` (visible) or append to the pending buffer
(hidden). -/
def processMessage (playSound : Bool) (st : HookState) (m : MessageInfo) (now : Nat)
    (rand : JStr) : HookState :=
  let uid := generateMessageId m now
  if uid ∈ st.processedIds then st
  else
    let st1 := { st with processedIds := uid :: st.processedIds }
    let nn := mkStreamRecord m now rand
    if st1.visible then
      { st1 with notifications := (addNotification playSound st1.notifications (toAddInput nn) now rand).1 }
    else
      { st1 with pending := st1.pending ++ [nn] }

/-! ### Store mutations -/

/-- `markAsRead`: set the read flag of the record with the given id. -/
def markAsRead (id : JStr) (ns : List Notification) : List Notification :=
  ns.map fun n => if n.id = id then { n with read := true } else n

/-- `markAllAsRead`: set every read flag. -/
def markAllAsRead (ns : List Notification) : List Notification :=
  ns.map fun n => { n with read := true }

/-- `removeNotification`: drop the record with the given id. -/
def removeNotification (id : JStr) (ns : List Notification) : List Notification :=
  ns.filter fun n => n.id ≠ id

/-- `clearNotifications`: empty the store. -/
def clearNotifications (_ns : List Notification) : List Notification := []

/-! ### Reconnect backoff of `setupListener` -/

/-- The backoff delay used while the attempt counter is below its cap. -/
def backoffDelay (count : Nat) : Nat := min 30000 (2 ^ count * 1000)

/-- One failed setup attempt: below 5, schedule after the capped exponential
delay and increment; at 5, reset the counter and schedule one extended retry
after 60000 ms. Returns `(delay, new counter)`. -/
def stepFail (count : Nat) : Nat × Nat :=
  if count < 5 then (backoffDelay count, count + 1) else (60000, 0)

/-- One observed outcome of a setup (or delivery) cycle: success resets the
counter, failure applies `stepFail`. -/
def reconnectStep (count : Nat) (ok : Bool) : Nat :=
  if ok then 0 else (stepFail count).2

/-- The counter after a sequence of outcomes, starting from a given value. -/
def runCounter (outcomes : List Bool) (start : Nat) : Nat :=
  outcomes.foldl reconnectStep start

/-- The delays scheduled by `k` consecutive failures from a given counter. -/
def failDelays (count : Nat) : Nat → List Nat
  | 0 => []
  | k + 1 => (stepFail count).1 :: failDelays (stepFail count).2 k

/-! ### Theorems -/

theorem runCounter_le_five : ∀ (l : List Bool) (c : Nat), c ≤ 5 → runCounter l c ≤ 5 := by
  intro l
  induction l with
  | nil => intro c hc; simpa [runCounter] using hc
  | cons b bs ih =>
    intro c hc
    have hstep : reconnectStep c b ≤ 5 := by
      unfold reconnectStep stepFail
      split
      · omega
      · split <;> omega
    simpa [runCounter, List.foldl_cons] using ih _ hstep

/-- C1: the reconnect attempt counter stays in [0,5] along every sequence of
setup outcomes; a failed setup below the cap schedules a retry after
`min(30000, 2^attempt * 1000)` ms and increments the counter; at 5 the
counter resets to 0 and one extended retry is scheduled after exactly
60000 ms, so the 6th scheduled retry of 6 consecutive failures is delayed
60000 ms rather than `2^5 * 1000` ms. -/
theorem c1_reconnect_backoff (outcomes : List Bool) (c : Nat) (hc : c < 5) :
    runCounter outcomes 0 ≤ 5 ∧
    stepFail c = (min 30000 (2 ^ c * 1000), c + 1) ∧
    stepFail 5 = (60000, 0) ∧
    failDelays 0 6 = [1000, 2000, 4000, 8000, 16000, 60000] := by
  refine ⟨runCounter_le_five outcomes 0 (by omega), ?_, by decide, by decide⟩
  simp [stepFail, hc, backoffDelay]

/-- Witness for C1 at a concrete outcome sequence and counter value. -/
theorem c1_reconnect_backoff_witness :
    3 < 5 ∧
    (runCounter [false, false, true, false] 0 ≤ 5 ∧
     stepFail 3 = (min 30000 (2 ^ 3 * 1000), 4) ∧
     stepFail 5 = (60000, 0) ∧
     failDelays 0 6 = [1000, 2000, 4000, 8000, 16000, 60000]) :=
  ⟨by decide, c1_reconnect_backoff [false, false, true, false] 3 (by decide)⟩

/-- C7: while the surface is hidden, a fresh stream notification is appended
to the FIFO buffer and the store is untouched; a hidden→visible edge moves
the whole buffer, in arrival order, ahead of the existing records and
empties it; a rising edge with an empty buffer leaves the store and buffer
unchanged. -/
theorem c7_background_queue (st : HookState) (m : MessageInfo) (now : Nat) (rand : JStr)
    (playSound : Bool) (ns ps : List Notification) (pids : List JStr)
    (hhidden : st.visible = false)
    (hfresh : generateMessageId m now ∉ st.processedIds) :
    (processMessage playSound st m now rand).notifications = st.notifications ∧
    (processMessage playSound st m now rand).pending
      = st.pending ++ [mkStreamRecord m now rand] ∧
    handleVisibilityChange true ⟨ns, ps, false, pids⟩ = ⟨ps ++ ns, [], true, pids⟩ ∧
    handleVisibilityChange true ⟨ns, [], false, pids⟩ = ⟨ns, [], true, pids⟩ := by
  refine ⟨?_, ?_, ?_, ?_⟩
  · simp [processMessage, hfresh, hhidden]
  · simp [processMessage, hfresh, hhidden]
  · by_cases hp : ps = [] <;> simp [handleVisibilityChange, hp]
  · simp [handleVisibilityChange]

/-- Witness for C7 at a concrete hidden state and message. -/
theorem c7_background_queue_witness :
    (⟨[], [], false, []⟩ : HookState).visible = false ∧
    generateMessageId ⟨['c'], ['s'], ['t'], false, none, none⟩ 7
      ∉ (⟨[], [], false, []⟩ : HookState).processedIds ∧
    ((processMessage true ⟨[], [], false, []⟩ ⟨['c'], ['s'], ['t'], false, none, none⟩ 7
        ['r']).notifications = ([] : List Notification) ∧
     (processMessage true ⟨[], [], false, []⟩ ⟨['c'], ['s'], ['t'], false, none, none⟩ 7
        ['r']).pending
       = [] ++ [mkStreamRecord ⟨['c'], ['s'], ['t'], false, none, none⟩ 7 ['r']] ∧
     handleVisibilityChange true ⟨[], [], false, []⟩ = ⟨[] ++ [], [], true, []⟩ ∧
     handleVisibilityChange true ⟨[], [], false, []⟩ = ⟨[], [], true, []⟩) :=
  ⟨rfl, by decide,
    c7_background_queue ⟨[], [], false, []⟩ ⟨['c'], ['s'], ['t'], false, none, none⟩ 7 ['r']
      true [] [] [] rfl (by decide)⟩

/-- C8: the four store mutations are idempotent and total: marking an absent
or already-read id, removing an absent id, or applying any mutation twice
yields the same store as once, and `markAllAsRead` on an empty store leaves
it empty. -/
theorem c8_store_mutations_idempotent :
    (∀ (id : JStr) (ns : List Notification),
      markAsRead id (markAsRead id ns) = markAsRead id ns) ∧
    (∀ ns : List Notification, markAllAsRead (markAllAsRead ns) = markAllAsRead ns) ∧
    (∀ (id : JStr) (ns : List Notification),
      removeNotification id (removeNotification id ns) = removeNotification id ns) ∧
    (∀ ns : List Notification,
      clearNotifications (clearNotifications ns) = clearNotifications ns) ∧
    (∀ (id : JStr) (ns : List Notification),
      (∀ n ∈ ns, n.id ≠ id) → markAsRead id ns = ns) ∧
    (∀ (id : JStr) (ns : List Notification),
      (∀ n ∈ ns, n.id = id → n.read = true) → markAsRead id ns = ns) ∧
    (∀ (id : JStr) (ns : List Notification),
      (∀ n ∈ ns, n.id ≠ id) → removeNotification id ns = ns) ∧
    markAllAsRead [] = [] := by
  refine ⟨?_, ?_, ?_, fun _ => rfl, ?_, ?_, ?_, rfl⟩
  · intro id ns
    unfold markAsRead
    rw [List.map_map]
    apply List.map_congr_left
    intro n _
    by_cases h : n.id = id <;> simp [Function.comp, h]
  · intro ns
    unfold markAllAsRead
    rw [List.map_map]
    apply List.map_congr_left
    intro n _
    simp [Function.comp]
  · intro id ns
    unfold removeNotification
    rw [List.filter_filter]
    apply List.filter_congr
    intro n _
    by_cases h : n.id = id <;> simp [h]
  · intro id ns h
    unfold markAsRead
    conv_rhs => rw [← List.map_id ns]
    apply List.map_congr_left
    intro n hn
    simp [h n hn]
  · intro id ns h
    unfold markAsRead
    conv_rhs => rw [← List.map_id ns]
    apply List.map_congr_left
    intro n hn
    by_cases hid : n.id = id
    · have hread := h n hn hid
      cases n
      simp_all
    · simp [hid]
  · intro id ns h
    unfold removeNotification
    rw [List.filter_eq_self]
    intro n hn
    simp [h n hn]

/-- Witness for C8 at a concrete store and absent id. -/
theorem c8_store_mutations_idempotent_witness :
    (∀ n ∈ [({ id := ['a'], title := [], message := [], read := false, timestamp := 0 }
        : Notification)], n.id ≠ ['b']) ∧
    markAsRead ['b']
        [({ id := ['a'], title := [], message := [], read := false, timestamp := 0 }
          : Notification)]
      = [({ id := ['a'], title := [], message := [], read := false, timestamp := 0 }
          : Notification)] :=
  ⟨by decide, c8_store_mutations_idempotent.2.2.2.2.1 ['b'] _ (by decide)⟩

/-- C9 counterexample: with an empty title (which contains no `-`) and a
non-empty message, parsing does recover the original values, but the retry
loop skips the entry (JS falsiness of the empty title), so
`retryFailedNotifications` does not re-deliver — refuting the claim as
stated for every title. -/
theorem c9_empty_title_counterexample :
    parseNotificationId (generateNotificationId ⟨[], ['M'], none, none⟩ 5) = ([], ['M']) ∧
    retryFailedNotifications [generateNotificationId ⟨[], ['M'], none, none⟩ 5] = [] := by
  decide

/-- C9 amended: for every non-empty dash-free title and non-empty message,
parsing the failed-delivery id recovers exactly the original title and
message, and `retryFailedNotifications` re-delivers with those values. -/
theorem c9_retry_id_roundtrip (title message : JStr) (ts : Nat)
    (hnodash : '-' ∉ title) (htitle : title ≠ []) (hmsg : message ≠ []) :
    parseNotificationId (generateNotificationId ⟨title, message, none, none⟩ ts)
      = (title, message) ∧
    retryFailedNotifications [generateNotificationId ⟨title, message, none, none⟩ ts]
      = [(title, message)] := by
  have hsplit : splitOnDash (generateNotificationId ⟨title, message, none, none⟩ ts)
      = title :: (splitOnDash message ++ [natChars ts]) := by
    unfold generateNotificationId
    rw [splitOnDash_append_dash _ _ hnodash,
      splitOnDash_append_last _ _ (dash_not_mem_natChars ts)]
  have hparse : parseNotificationId (generateNotificationId ⟨title, message, none, none⟩ ts)
      = (title, message) := by
    unfold parseNotificationId
    rw [hsplit]
    simp [List.dropLast_concat, joinDash_splitOnDash]
  refine ⟨hparse, ?_⟩
  simp [retryFailedNotifications, hparse, htitle, hmsg]

/-- Witness for C9's amended round-trip at a concrete title and message. -/
theorem c9_retry_id_roundtrip_witness :
    '-' ∉ (['T'] : JStr) ∧ (['T'] : JStr) ≠ [] ∧ (['h', 'i'] : JStr) ≠ [] ∧
    (parseNotificationId (generateNotificationId ⟨['T'], ['h', 'i'], none, none⟩ 3)
        = (['T'], ['h', 'i']) ∧
     retryFailedNotifications [generateNotificationId ⟨['T'], ['h', 'i'], none, none⟩ 3]
        = [(['T'], ['h', 'i'])]) :=
  ⟨by decide, by decide, by decide,
    c9_retry_id_roundtrip ['T'] ['h', 'i'] 3 (by decide) (by decide) (by decide)⟩

theorem generateMessageId_eq_stem (m : MessageInfo) (t : Nat) :
    generateMessageId m t
      = (m.chatId ++ '-' :: m.sender ++ '-' :: m.text ++ '-' ::
          (intChars (textHash m.text) ++ timeTag)) ++ natChars t := by
  simp [generateMessageId, List.append_assoc]

/-- C3 counterexample: the identical wire message processed 1 ms apart — well
inside the 5-minute dedup window — yields two different fingerprints, and the
second is therefore not suppressed by the processed-id check: after the first
event is processed, the second event's id is not among the processed ids. -/
theorem c3_same_window_different_ids_counterexample :
    generateMessageId ⟨['c'], ['s'], ['h', 'i'], false, none, none⟩ 1000
      ≠ generateMessageId ⟨['c'], ['s'], ['h', 'i'], false, none, none⟩ 1001 ∧
    generateMessageId ⟨['c'], ['s'], ['h', 'i'], false, none, none⟩ 1001
      ∉ (processMessage true ⟨[], [], true, []⟩
          ⟨['c'], ['s'], ['h', 'i'], false, none, none⟩ 1000 ['r']).processedIds := by
  decide

/-- C3 amended: the stream-event fingerprint is a deterministic function of
conversation id, sender, text (through its order-dependent character-code
hash) and the arrival timestamp; two events with identical content fields
processed at the same timestamp get the same id, while any two different
arrival timestamps — even for the identical wire message inside the dedup
window — give different ids. -/
theorem c3_message_fingerprint (m1 m2 m : MessageInfo) (t t1 t2 : Nat)
    (hchat : m1.chatId = m2.chatId) (hsender : m1.sender = m2.sender)
    (htext : m1.text = m2.text) (hne : t1 ≠ t2) :
    generateMessageId m1 t = generateMessageId m2 t ∧
    generateMessageId m t1 ≠ generateMessageId m t2 := by
  constructor
  · simp [generateMessageId, hchat, hsender, htext]
  · intro heq
    rw [generateMessageId_eq_stem m t1, generateMessageId_eq_stem m t2] at heq
    exact hne (natChars_injective (List.append_cancel_left heq))

/-- Witness for C3's amended statement at concrete events and timestamps. -/
theorem c3_message_fingerprint_witness :
    (['c'] : JStr) = ['c'] ∧ (['s'] : JStr) = ['s'] ∧ (['h'] : JStr) = ['h'] ∧
    (1000 : Nat) ≠ 1001 ∧
    (generateMessageId ⟨['c'], ['s'], ['h'], false, none, none⟩ 7
        = generateMessageId ⟨['c'], ['s'], ['h'], true, none, none⟩ 7 ∧
     generateMessageId ⟨['c'], ['s'], ['h'], false, none, none⟩ 1000
        ≠ generateMessageId ⟨['c'], ['s'], ['h'], false, none, none⟩ 1001) :=
  ⟨rfl, rfl, rfl, by decide,
    c3_message_fingerprint ⟨['c'], ['s'], ['h'], false, none, none⟩
      ⟨['c'], ['s'], ['h'], true, none, none⟩
      ⟨['c'], ['s'], ['h'], false, none, none⟩ 7 1000 1001 rfl rfl rfl (by decide)⟩

theorem mkRecord_toAddInput_stream (m : MessageInfo) (t : Nat) (r r2 : JStr) :
    mkRecord (toAddInput (mkStreamRecord m t r)) t r2 = mkStreamRecord m t r := by
  simp [mkRecord, toAddInput, mkStreamRecord, jsOrStr, jsOrNat, msgTag]

/-- C4 counterexample: with the surface hidden, the identical message event
arriving twice 50 ms apart passes the processed-id check both times
(different millisecond timestamps give different fingerprints), both records
are pushed onto the pending buffer, and the rising-edge flush — which applies
no duplicate check — inserts both into the store: two NotificationRecords
are created, refuting the claim for the hidden path. -/
theorem c4_hidden_double_delivery_counterexample :
    (handleVisibilityChange true
        (processMessage true
          (processMessage true ⟨[], [], false, []⟩
            ⟨['c'], ['s'], ['h'], false, none, none⟩ 1000 ['a'])
          ⟨['c'], ['s'], ['h'], false, none, none⟩ 1050 ['b'])).notifications
      = [mkStreamRecord ⟨['c'], ['s'], ['h'], false, none, none⟩ 1000 ['a'],
         mkStreamRecord ⟨['c'], ['s'], ['h'], false, none, none⟩ 1050 ['b']] := by
  decide

/-- C4 amended: while the surface is visible, a message event with identical
conversation id, sender and text that arrives twice within 100 ms creates
exactly one record — the first insert succeeds, and the second arrival is
dropped either by the processed-id check (same-millisecond duplicate) or by
the store-level duplicate check (same message and kind within 5000 ms). While
hidden, both arrivals are buffered and the flush inserts both, so the
one-record guarantee is restricted to the visible path. -/
theorem c4_stream_double_delivery (st : HookState) (m : MessageInfo) (t d : Nat)
    (r1 r2 : JStr) (ps : Bool)
    (hvis : st.visible = true)
    (hd : d ≤ 100)
    (hfresh : generateMessageId m t ∉ st.processedIds)
    (hnodup : isDuplicate st.notifications (mkStreamRecord m t r1) = false) :
    (processMessage ps st m t r1).notifications
      = mkStreamRecord m t r1 :: st.notifications ∧
    (processMessage ps (processMessage ps st m t r1) m (t + d) r2).notifications
      = mkStreamRecord m t r1 :: st.notifications := by
  have hst1 : processMessage ps st m t r1
      = { notifications := mkStreamRecord m t r1 :: st.notifications,
          pending := st.pending, visible := true,
          processedIds := generateMessageId m t :: st.processedIds } := by
    simp [processMessage, hfresh, hvis, addNotification, mkRecord_toAddInput_stream, hnodup]
  refine ⟨by rw [hst1], ?_⟩
  rw [hst1]
  by_cases hmem : generateMessageId m (t + d)
      ∈ generateMessageId m t :: st.processedIds
  · simp [processMessage, hmem]
  · have hdup : dupWith (mkStreamRecord m (t + d) r2) (mkStreamRecord m t r1) = true := by
      simp only [dupWith, mkStreamRecord, Bool.and_eq_true, Bool.or_eq_true,
        decide_eq_true_eq]
      refine ⟨⟨trivial, trivial⟩, Or.inl ?_⟩
      push_cast
      omega
    have hdup2 : isDuplicate (mkStreamRecord m t r1 :: st.notifications)
        (mkStreamRecord m (t + d) r2) = true := by
      simp [isDuplicate, List.any_cons, hdup]
    simp [processMessage, hmem, addNotification, mkRecord_toAddInput_stream, hdup2]

/-- Witness for C4 at a concrete state and message pair 50 ms apart. -/
theorem c4_stream_double_delivery_witness :
    (⟨[], [], true, []⟩ : HookState).visible = true ∧ (50 : Nat) ≤ 100 ∧
    generateMessageId ⟨['c'], ['s'], ['h'], false, none, none⟩ 1000
      ∉ (⟨[], [], true, []⟩ : HookState).processedIds ∧
    isDuplicate (⟨[], [], true, []⟩ : HookState).notifications
      (mkStreamRecord ⟨['c'], ['s'], ['h'], false, none, none⟩ 1000 ['a']) = false ∧
    ((processMessage true ⟨[], [], true, []⟩ ⟨['c'], ['s'], ['h'], false, none, none⟩
        1000 ['a']).notifications
      = mkStreamRecord ⟨['c'], ['s'], ['h'], false, none, none⟩ 1000 ['a'] :: [] ∧
     (processMessage true
        (processMessage true ⟨[], [], true, []⟩ ⟨['c'], ['s'], ['h'], false, none, none⟩
          1000 ['a'])
        ⟨['c'], ['s'], ['h'], false, none, none⟩ (1000 + 50) ['b']).notifications
      = mkStreamRecord ⟨['c'], ['s'], ['h'], false, none, none⟩ 1000 ['a'] :: []) :=
  ⟨rfl, by decide, by decide, by decide,
    c4_stream_double_delivery ⟨[], [], true, []⟩ ⟨['c'], ['s'], ['h'], false, none, none⟩
      1000 50 ['a'] ['b'] true rfl (by decide) (by decide) (by decide)⟩

/-- The predicate distinguishing sound effects from visual ones. -/
def Effect.isSound : Effect → Bool
  | .sound _ => true
  | _ => false

theorem areBrowser_effects (env : VisualEnv) :
    (areBrowserNotificationsSupported env).2 = []
    ∨ (areBrowserNotificationsSupported env).2 = [Effect.permissionRequest] := by
  cases h : env.requestOutcome with
  | none => unfold areBrowserNotificationsSupported; split_ifs <;> simp [h]
  | some p => unfold areBrowserNotificationsSupported; split_ifs <;> simp [h]

theorem afterBridge_no_sound (env : VisualEnv) (failed : List JStr) (id : JStr)
    (wasFailed : Bool) (dur : Option Nat) (pre : List Effect)
    (hpre : pre.all (fun e => !e.isSound) = true) :
    ((afterBridge env failed id wasFailed dur pre).2.1).all (fun e => !e.isSound) = true := by
  unfold afterBridge
  rcases hb : areBrowserNotificationsSupported env with ⟨res, reqEff⟩
  have hreq : reqEff.all (fun e => !e.isSound) = true := by
    rcases areBrowser_effects env with h | h <;> rw [hb] at h <;> simp at h <;>
      simp [h, Effect.isSound]
  try rw [hb]
  cases res with
  | error e => split_ifs <;> simp_all [Effect.isSound, List.all_append]
  | ok canUse =>
    rcases canUse <;> split_ifs <;> simp_all [Effect.isSound, List.all_append]

theorem visualDispatch_no_sound (venv : VisualEnv) (failed : List JStr) (id : JStr)
    (wasFailed : Bool) (dur : Option Nat) :
    ((visualDispatch venv failed id wasFailed dur).2.1).all (fun e => !e.isSound) = true := by
  unfold visualDispatch
  split_ifs
  · simp [Effect.isSound]
  · exact afterBridge_no_sound _ _ _ _ _ _ (by simp [Effect.isSound])
  · exact afterBridge_no_sound _ _ _ _ _ _ (by simp)

theorem playNotificationSound_trace_ne_nil (env : SoundEnv) :
    (playNotificationSound env).2 ≠ [] := by
  unfold playNotificationSound attemptPlay
  split_ifs <;> simp

/-- C5: the dispatcher tries channels in priority order and stops at the
first success — a present, non-throwing bridge delivers natively and nothing
else is attempted; otherwise, with the OS capability granted and working, an
OS notification is shown with auto-dismiss after `durationHint` or, when the
hint is absent or zero (JS falsy), the default 5000 ms;
and in the scenario with the bridge absent and OS permission denied, the
call resolves with the UI fall-through outcome, sound is still attempted, no
permission request is issued, and the failed set only loses the call's id
(the dispatcher never touches the Notification Store, which it cannot even
reference). -/
theorem c5_channel_priority (senv : SoundEnv) (venv : VisualEnv) (st : ServiceState)
    (data : NotificationData) (now : Nat)
    (hno_bridge : venv.androidPresent = false)
    (hapi : venv.hasNotificationAPI = true)
    (hdenied : venv.permission = .denied) :
    (∀ venv2 : VisualEnv, venv2.androidPresent = true → venv2.androidThrows = false →
      (showNotification senv venv2 st data now).2.2 = .android ∧
      (showNotification senv venv2 st data now).2.1
        = (playNotificationSound senv).2.map Effect.sound ++ [Effect.androidCall]) ∧
    (∀ venv2 : VisualEnv, venv2.androidPresent = false → venv2.hasNotificationAPI = true →
      venv2.permission = .granted → venv2.constructorThrows = false →
      (showNotification senv venv2 st data now).2.2 = .os ∧
      Effect.osNotify (jsOrNat data.duration 5000)
        ∈ (showNotification senv venv2 st data now).2.1) ∧
    (showNotification senv venv st data now).2.2 = .ui ∧
    (showNotification senv venv st data now).2.1
      = (playNotificationSound senv).2.map Effect.sound ++ [Effect.uiFallback] ∧
    (playNotificationSound senv).2 ≠ [] ∧
    Effect.permissionRequest ∉ (showNotification senv venv st data now).2.1 ∧
    (showNotification senv venv st data now).1.failedNotifications
      = st.failedNotifications.erase (generateNotificationId data now) := by
  refine ⟨?_, ?_, ?_, ?_, playNotificationSound_trace_ne_nil senv, ?_, ?_⟩
  · intro venv2 h1 h2
    constructor <;>
      simp [showNotification, visualDispatch, h1, h2]
  · intro venv2 h1 h2 h3 h4
    constructor <;>
      simp [showNotification, visualDispatch, afterBridge,
        areBrowserNotificationsSupported, h1, h2, h3, h4]
  · simp [showNotification, visualDispatch, afterBridge,
      areBrowserNotificationsSupported, hno_bridge, hapi, hdenied]
  · simp [showNotification, visualDispatch, afterBridge,
      areBrowserNotificationsSupported, hno_bridge, hapi, hdenied]
  · simp [showNotification, visualDispatch, afterBridge,
      areBrowserNotificationsSupported, hno_bridge, hapi, hdenied]
  · simp [showNotification, visualDispatch, afterBridge,
      areBrowserNotificationsSupported, hno_bridge, hapi, hdenied]

/-- Witness for C5 at a concrete environment with the bridge absent and OS
permission denied. -/
theorem c5_channel_priority_witness :
    (VisualEnv.mk false false true .denied none false).androidPresent = false ∧
    (VisualEnv.mk false false true .denied none false).hasNotificationAPI = true ∧
    (VisualEnv.mk false false true .denied none false).permission = .denied ∧
    ((showNotification ⟨true, fun _ => true, fun _ => true, true⟩
        (VisualEnv.mk false false true .denied none false)
        ⟨[], []⟩ ⟨['T'], ['M'], none, none⟩ 0).2.2 = .ui ∧
     (showNotification ⟨true, fun _ => true, fun _ => true, true⟩
        (VisualEnv.mk false false true .denied none false)
        ⟨[], []⟩ ⟨['T'], ['M'], none, none⟩ 0).2.1
       = (playNotificationSound ⟨true, fun _ => true, fun _ => true, true⟩).2.map
           Effect.sound ++ [Effect.uiFallback] ∧
     (playNotificationSound ⟨true, fun _ => true, fun _ => true, true⟩).2 ≠ [] ∧
     Effect.permissionRequest
       ∉ (showNotification ⟨true, fun _ => true, fun _ => true, true⟩
            (VisualEnv.mk false false true .denied none false)
            ⟨[], []⟩ ⟨['T'], ['M'], none, none⟩ 0).2.1 ∧
     (showNotification ⟨true, fun _ => true, fun _ => true, true⟩
        (VisualEnv.mk false false true .denied none false)
        ⟨[], []⟩ ⟨['T'], ['M'], none, none⟩ 0).1.failedNotifications
       = ([] : List JStr).erase (generateNotificationId ⟨['T'], ['M'], none, none⟩ 0)) :=
  ⟨rfl, rfl, rfl,
    ((c5_channel_priority ⟨true, fun _ => true, fun _ => true, true⟩
        (VisualEnv.mk false false true .denied none false)
        ⟨[], []⟩ ⟨['T'], ['M'], none, none⟩ 0 rfl rfl rfl).2.2)⟩

/-- C6: sound is attempted before any visual channel on every call — the
effect trace is the non-empty sound trace followed by a visual tail free of
sound effects; when the preloaded asset is unavailable and the ad-hoc
one-shot play fails, the WAV encoding is tried next; and the sound
environment never influences the resulting service state or the visual
outcome (sound failure cannot block or abort the visual path). -/
theorem c6_sound_first (senv senv2 : SoundEnv) (venv : VisualEnv) (st : ServiceState)
    (data : NotificationData) (now : Nat)
    (hnotloaded : senv.soundLoaded = false)
    (hfb : senv.fallbackPlayOk 0 = false) :
    ((showNotification senv2 venv st data now).2.1
        = (playNotificationSound senv2).2.map Effect.sound
          ++ (visualDispatch venv st.failedNotifications
                (generateNotificationId data now)
                (generateNotificationId data now ∈ st.failedNotifications)
                data.duration).2.1 ∧
      ((visualDispatch venv st.failedNotifications
          (generateNotificationId data now)
          (generateNotificationId data now ∈ st.failedNotifications)
          data.duration).2.1).all (fun e => !e.isSound) = true ∧
      (playNotificationSound senv2).2 ≠ []) ∧
    (∃ rest, (playNotificationSound senv).2
        = SoundEffect.fallbackPlay 0 :: SoundEffect.wavPlay :: rest) ∧
    (showNotification senv venv st data now).1
      = (showNotification senv2 venv st data now).1 ∧
    (showNotification senv venv st data now).2.2
      = (showNotification senv2 venv st data now).2.2 := by
  refine ⟨⟨rfl, visualDispatch_no_sound _ _ _ _ _,
    playNotificationSound_trace_ne_nil senv2⟩, ?_, rfl, rfl⟩
  by_cases hw : senv.wavPlayOk
  · exact ⟨[], by simp [playNotificationSound, attemptPlay, hnotloaded, hfb, hw]⟩
  · exact ⟨(attemptPlay senv 3 1).2,
      by simp [playNotificationSound, attemptPlay, hnotloaded, hfb, hw]⟩

/-- Witness for C6 at a concrete failing sound environment. -/
theorem c6_sound_first_witness :
    (SoundEnv.mk false (fun _ => false) (fun _ => false) false).soundLoaded = false ∧
    (SoundEnv.mk false (fun _ => false) (fun _ => false) false).fallbackPlayOk 0 = false ∧
    (∃ rest, (playNotificationSound
        (SoundEnv.mk false (fun _ => false) (fun _ => false) false)).2
      = SoundEffect.fallbackPlay 0 :: SoundEffect.wavPlay :: rest) :=
  ⟨rfl, rfl,
    (c6_sound_first (SoundEnv.mk false (fun _ => false) (fun _ => false) false)
      (SoundEnv.mk false (fun _ => false) (fun _ => false) false)
      (VisualEnv.mk false false false .denied none false)
      ⟨[], []⟩ ⟨['T'], ['M'], none, none⟩ 0 rfl rfl).2.1⟩

/-- A visual environment in which every delivery channel raises: the bridge
is present but throws, the OS capability is granted but its constructor
throws. -/
def allChannelsRaiseEnv : VisualEnv :=
  { androidPresent := true, androidThrows := true, hasNotificationAPI := true,
    permission := .granted, requestOutcome := none, constructorThrows := true }

/-- C2 counterexample: when all delivery channels raise, the per-channel
handlers absorb the errors and the call falls through to the UI channel as a
success — the fingerprint id is not added to the failed set and no automatic
retry is scheduled, contradicting the claim. -/
theorem c2_all_channels_raise_counterexample :
    (showNotification ⟨true, fun _ => true, fun _ => true, true⟩ allChannelsRaiseEnv
        ⟨[], []⟩ ⟨['T'], ['M'], none, none⟩ 0).1.failedNotifications = [] ∧
    (showNotification ⟨true, fun _ => true, fun _ => true, true⟩ allChannelsRaiseEnv
        ⟨[], []⟩ ⟨['T'], ['M'], none, none⟩ 0).2.2 = .ui ∧
    Effect.scheduleRetry 1000 (generateNotificationId ⟨['T'], ['M'], none, none⟩ 0)
      ∉ (showNotification ⟨true, fun _ => true, fun _ => true, true⟩ allChannelsRaiseEnv
           ⟨[], []⟩ ⟨['T'], ['M'], none, none⟩ 0).2.1 := by
  decide

/-- C2 amended: the failed-set bookkeeping fires on the one throw the channel
sequence does not absorb — the awaited permission request rejecting. In that
case, for an id not already in the failed set, the id is appended to the
failed set and exactly one automatic retry is scheduled 1000 ms later; the
scheduled retry is guarded by re-checking membership, so it does nothing once
the id has left the failed set. When the delivery channels themselves raise,
their errors are caught per channel: the call falls through to the UI
channel, removes the id from the failed set, and schedules no retry. -/
theorem c2_failed_set_retry (senv : SoundEnv) (venv : VisualEnv) (st : ServiceState)
    (data : NotificationData) (now now2 : Nat)
    (hbridge : venv.androidPresent = false ∨ venv.androidThrows = true)
    (hapi : venv.hasNotificationAPI = true)
    (hperm : venv.permission = .defaultPerm)
    (hreq : venv.requestOutcome = none)
    (hnew : generateNotificationId data now ∉ st.failedNotifications) :
    (showNotification senv venv st data now).1.failedNotifications
      = st.failedNotifications ++ [generateNotificationId data now] ∧
    (showNotification senv venv st data now).2.2 = .failedRetryScheduled ∧
    (showNotification senv venv st data now).2.1.count
        (Effect.scheduleRetry 1000 (generateNotificationId data now)) = 1 ∧
    (∀ st2 : ServiceState, generateNotificationId data now ∉ st2.failedNotifications →
      runScheduledRetry senv venv st2 (generateNotificationId data now) data now2 = none) ∧
    (∀ venv2 : VisualEnv, venv2.androidPresent = true → venv2.androidThrows = true →
      venv2.hasNotificationAPI = true → venv2.permission = .granted →
      venv2.constructorThrows = true →
      (showNotification senv venv2 st data now).2.2 = .ui ∧
      (showNotification senv venv2 st data now).1.failedNotifications
        = st.failedNotifications.erase (generateNotificationId data now) ∧
      (∀ (dMs : Nat) (id2 : JStr),
        Effect.scheduleRetry dMs id2 ∉ (showNotification senv venv2 st data now).2.1)) := by
  have hvd : visualDispatch venv st.failedNotifications (generateNotificationId data now)
      (generateNotificationId data now ∈ st.failedNotifications) data.duration
      = (st.failedNotifications ++ [generateNotificationId data now],
          (if venv.androidPresent then [Effect.androidCall] else [])
            ++ [Effect.permissionRequest,
                Effect.scheduleRetry 1000 (generateNotificationId data now)],
          .failedRetryScheduled) := by
    rcases hbridge with hb | hb
    · simp [visualDispatch, afterBridge, areBrowserNotificationsSupported, setInsert,
        hb, hapi, hperm, hreq, hnew]
    · cases hp : venv.androidPresent <;>
        simp [visualDispatch, afterBridge, areBrowserNotificationsSupported, setInsert,
          hb, hp, hapi, hperm, hreq, hnew]
  refine ⟨?_, ?_, ?_, ?_, ?_⟩
  · simp [showNotification, hvd]
  · simp [showNotification, hvd]
  · simp only [showNotification, hvd, List.count_append]
    rw [List.count_eq_zero.mpr (by simp)]
    rcases venv.androidPresent <;> simp [List.count_cons, List.count_singleton]
  · intro st2 h2
    simp [runScheduledRetry, h2]
  · intro venv2 h1 h2 h3 h4 h5
    refine ⟨?_, ?_, ?_⟩
    · simp [showNotification, visualDispatch, afterBridge,
        areBrowserNotificationsSupported, h1, h2, h3, h4, h5]
    · simp [showNotification, visualDispatch, afterBridge,
        areBrowserNotificationsSupported, h1, h2, h3, h4, h5]
    · intro dMs id2
      simp [showNotification, visualDispatch, afterBridge,
        areBrowserNotificationsSupported, h1, h2, h3, h4, h5]

/-- Witness for C2's amended statement at a concrete environment whose
permission request rejects. -/
theorem c2_failed_set_retry_witness :
    ((VisualEnv.mk false false true .defaultPerm none false).androidPresent = false ∨
      (VisualEnv.mk false false true .defaultPerm none false).androidThrows = true) ∧
    generateNotificationId ⟨['T'], ['M'], none, none⟩ 0
      ∉ (⟨[], []⟩ : ServiceState).failedNotifications ∧
    ((showNotification ⟨true, fun _ => true, fun _ => true, true⟩
        (VisualEnv.mk false false true .defaultPerm none false)
        ⟨[], []⟩ ⟨['T'], ['M'], none, none⟩ 0).1.failedNotifications
      = [] ++ [generateNotificationId ⟨['T'], ['M'], none, none⟩ 0] ∧
     (showNotification ⟨true, fun _ => true, fun _ => true, true⟩
        (VisualEnv.mk false false true .defaultPerm none false)
        ⟨[], []⟩ ⟨['T'], ['M'], none, none⟩ 0).2.2 = .failedRetryScheduled ∧
     (showNotification ⟨true, fun _ => true, fun _ => true, true⟩
        (VisualEnv.mk false false true .defaultPerm none false)
        ⟨[], []⟩ ⟨['T'], ['M'], none, none⟩ 0).2.1.count
        (Effect.scheduleRetry 1000 (generateNotificationId ⟨['T'], ['M'], none, none⟩ 0))
      = 1) :=
  ⟨Or.inl rfl, by decide,
    let h := c2_failed_set_retry ⟨true, fun _ => true, fun _ => true, true⟩
      (VisualEnv.mk false false true .defaultPerm none false)
      ⟨[], []⟩ ⟨['T'], ['M'], none, none⟩ 0 55 (Or.inl rfl) rfl rfl rfl (by decide)
    ⟨h.1, h.2.1, h.2.2.1⟩⟩

/-- A concrete store record used to exhibit C10's id behaviour. -/
def existingRec : Notification :=
  { id := ['X'], title := ['A'], message := ['M'], read := false, timestamp := 1000,
    type := some .system }

/-- C10 counterexample: a duplicate insert detected by exact id match leaves
the store unchanged but returns the caller-provided id `X`, which is not
freshly generated and names the record already in the store — contradicting
the claim that the returned id names no record. -/
theorem c10_duplicate_id_counterexample :
    (addNotification true [existingRec]
        { id := some ['X'], title := ['T'], message := ['M'], type := some .system }
        1000 ['r']).1 = [existingRec] ∧
    (addNotification true [existingRec]
        { id := some ['X'], title := ['T'], message := ['M'], type := some .system }
        1000 ['r']).2.1 = ['X'] ∧
    existingRec.id = ['X'] := by
  decide

/-- C10 amended: when `addNotification` rejects an incoming record as a
duplicate, the store is left completely unchanged, the sound/visual delivery
side effect is still attempted exactly when sound is enabled, and the call
returns the id of the rejected record — the caller-provided id when one was
given (which may name an existing store record, as with an id-match
duplicate), or the freshly generated `manual_` id when none was. -/
theorem c10_duplicate_rejection (playSound : Bool) (prev : List Notification)
    (inp : AddInput) (now : Nat) (rand : JStr)
    (hdup : isDuplicate prev (mkRecord inp now rand) = true) :
    (addNotification playSound prev inp now rand).1 = prev ∧
    (addNotification playSound prev inp now rand).2.1 = (mkRecord inp now rand).id ∧
    (addNotification playSound prev inp now rand).2.2
      = (if playSound then
          some { title := jsOrStr (some inp.title) defaultTitleWord,
                 message := inp.message : NotificationData }
         else none) ∧
    (inp.id = none → (mkRecord inp now rand).id = manualTag ++ natChars now ++ rand) := by
  refine ⟨?_, rfl, rfl, ?_⟩
  · simp [addNotification, hdup]
  · intro hid
    simp [mkRecord, jsOrStr, hid]

/-- Witness for C10's amended statement at the concrete duplicate insert. -/
theorem c10_duplicate_rejection_witness :
    isDuplicate [existingRec]
      (mkRecord { id := some ['X'], title := ['T'], message := ['M'],
                  type := some .system } 1000 ['r']) = true ∧
    ((addNotification true [existingRec]
        { id := some ['X'], title := ['T'], message := ['M'], type := some .system }
        1000 ['r']).1 = [existingRec] ∧
     (addNotification true [existingRec]
        { id := some ['X'], title := ['T'], message := ['M'], type := some .system }
        1000 ['r']).2.1
       = (mkRecord { id := some ['X'], title := ['T'], message := ['M'],
                     type := some .system } 1000 ['r']).id) :=
  ⟨by decide,
    let h := c10_duplicate_rejection true [existingRec]
      { id := some ['X'], title := ['T'], message := ['M'], type := some .system }
      1000 ['r'] (by decide)
    ⟨h.1, h.2.1⟩⟩

end NotifCore
